import Mathlib

/-!
Verification of the load-orchestration pipeline of the Doris stream-load
client (Go SDK).  The definitions below are a shallow embedding of the Go
sources: `pkg/client/doris_load_client.go` (retry orchestrator, error
classifier, backoff), `pkg/load/stream_loader.go` (request construction and
response interpretation), the `HttpPutBuilder` (request builder) and the
`config.LoadSetting` / `config.Retry` configuration types.

Modelling conventions:
  * Go `int` / `int64` are modelled as `Int`; where two's-complement
    wrapping matters (the backoff shift/multiplication) the wrap at 64 bits
    is made explicit (`int64wrap`).
  * Go maps `map[string]string` are modelled as association lists with a
    replacing update (`setKey`); lookups use `List.lookup`.
  * Effects (wall clock, UUID generation, the random source, the HTTP
    transport) are passed in as explicit arguments/oracles.
  * Fallible Go functions returning `(T, error)` become `Except String T`
    or a pair of `Option`s where both halves are observed by callers.
-/

namespace Doris

/-! ## String helpers mirroring Go's `strings` package -/

/-- `prefOf p s`: `p` is a prefix of `s` (char-list form of Go
`strings.HasPrefix`). -/
def prefOf : List Char → List Char → Bool
  | [], _ => true
  | _ :: _, [] => false
  | a :: as, b :: bs => a == b && prefOf as bs

/-- `subOf p s`: `p` occurs as a contiguous substring of `s` (char-list form
of Go `strings.Contains`). -/
def subOf (p : List Char) : List Char → Bool
  | [] => prefOf p []
  | s@(_ :: rest) => prefOf p s || subOf p rest

/-- Go `strings.Contains s pat`. -/
def strContains (s pat : String) : Bool :=
  subOf pat.data s.data

/-- Go `strings.ToLower` (the strings involved are ASCII, where
`Char.toLower` agrees with Go). -/
def strToLower (s : String) : String :=
  String.mk (s.data.map Char.toLower)

/-- Go `strings.EqualFold` restricted to ASCII case folding. -/
def strEqualFold (a b : String) : Bool :=
  strToLower a == strToLower b

/-! ## Data model: load outcomes (`pkg/load`)

The `LoadStatus`, `RespContent` and `LoadResponse` types live in the
`pkg/load` package; their field set is the protocol's JSON response schema
(spec section 6) as used by `stream_loader.go`. -/

inductive LoadStatus where
  | SUCCESS
  | FAILURE
deriving DecidableEq, Repr

/-- The parsed JSON body of a stream-load response (`load.RespContent`):
fields `Status`, `Message`, `Label`, `TxnId`, `NumberLoadedRows`,
`LoadBytes`, `LoadTimeMs`, `ErrorURL`. -/
structure RespContent where
  Status : String := ""
  Message : String := ""
  Label : String := ""
  TxnId : Int := 0
  NumberLoadedRows : Int := 0
  LoadBytes : Int := 0
  LoadTimeMs : Int := 0
  ErrorURL : String := ""
deriving DecidableEq, Repr

/-- `load.LoadResponse`: outcome status, the parsed response content, and an
error message composed by the response interpreter on failure. -/
structure LoadResponse where
  Status : LoadStatus
  Resp : RespContent
  ErrorMessage : String := ""
deriving DecidableEq, Repr

/-- A Go `error` value as observed by the classifier: its message
(`err.Error()`) and, when the dynamic type implements `net.Error`, the
`Timeout()` / `Temporary()` flags. -/
structure GoError where
  msg : String
  isNetError : Bool := false
  netTimeout : Bool := false
  netTemporary : Bool := false
deriving DecidableEq, Repr

/-! ## Error classifier (`doris_load_client.go`, `isRetryableError`) -/

/-- `retryableErrorPatterns` from `doris_load_client.go`. -/
def retryableErrorPatterns : List String :=
  ["connection refused", "connection reset", "connection timeout", "timeout",
   "network is unreachable", "no such host", "temporary failure", "dial tcp",
   "i/o timeout", "eof", "broken pipe", "connection aborted",
   "307 temporary redirect", "302 found", "301 moved permanently"]

/-- `retryableResponsePatterns` from `doris_load_client.go`. -/
def retryableResponsePatterns : List String :=
  ["connect", "unavailable", "timeout", "redirect"]

/-- `isRetryableError err response` from `doris_load_client.go`: with a
non-nil error, check the `net.Error` flags, then the lowercased message
against `retryableErrorPatterns`; with no error, a `FAILURE` response with a
non-empty message is checked against `retryableResponsePatterns`. -/
def isRetryableError (err : Option GoError) (response : Option LoadResponse) : Bool :=
  match err with
  | some e =>
    if e.isNetError && (e.netTimeout || e.netTemporary) then
      true
    else
      let errStrLower := strToLower e.msg
      if retryableErrorPatterns.any (fun p => strContains errStrLower p) then
        true
      else
        false
  | none =>
    match response with
    | some r =>
      if r.Status == LoadStatus.FAILURE && r.ErrorMessage != "" then
        retryableResponsePatterns.any (fun p => strContains (strToLower r.ErrorMessage) p)
      else
        false
    | none => false

/-! ## Backoff (`doris_load_client.go`, `calculateBackoffInterval`) -/

/-- Two's-complement wrap of an integer to the signed 64-bit range, the
semantics of Go `int`/`int64` arithmetic. -/
def int64wrap (x : Int) : Int :=
  (x + 2 ^ 63) % 2 ^ 64 - 2 ^ 63

/-- `calculateBackoffInterval attempt baseIntervalMs` from
`doris_load_client.go`, in milliseconds: `baseIntervalMs * 2^(attempt-1)`
computed in Go `int64` arithmetic (`1 << (attempt-1)` wraps at 64 bits, as
does the multiplication), then capped at 16000 ms.  The Go function wraps
the millisecond count into a `time.Duration`; the claims speak in
milliseconds, so the model returns the count itself. -/
def calculateBackoffInterval (attempt : Int) (baseIntervalMs : Int) : Int :=
  if attempt ≤ 0 then 0
  else
    let multiplier := int64wrap (2 ^ (attempt - 1).toNat)
    let intervalMs := int64wrap (baseIntervalMs * multiplier)
    if intervalMs > 16000 then 16000 else intervalMs

/-! ## Association lists standing for Go string maps -/

/-- Insert-or-replace on an association list: the model of a Go map
assignment `m[k] = v`. -/
def setKey : List (String × String) → String → String → List (String × String)
  | [], k, v => [(k, v)]
  | (k', v') :: rest, k, v =>
    if k' = k then (k, v) :: rest else (k', v') :: setKey rest k v

/-- Key removal: the model of Go `delete(m, k)`. -/
def delKey (m : List (String × String)) (k : String) : List (String × String) :=
  m.filter (fun kv => kv.1 ≠ k)

/-! ## Configuration (`pkg/config`, file `config.go`) -/

/-- `config.BatchMode`: group-commit mode. -/
inductive BatchMode where
  | SYNC
  | ASYNC
  | OFF
deriving DecidableEq, Repr

/-- `config.Retry`. -/
structure Retry where
  maxRetryTimes : Int
  retryIntervalMs : Int
deriving DecidableEq, Repr

/-- `config.NewRetry`. -/
def NewRetry (maxRetryTimes retryIntervalMs : Int) : Retry :=
  ⟨maxRetryTimes, retryIntervalMs⟩

/-- `config.NewDefaultRetry`: 5 retries, 1000 ms base interval. -/
def NewDefaultRetry : Retry :=
  NewRetry 5 1000

/-- `config.LoadSetting`.  The `settings` map is an association list; the
`retry` pointer is an `Option` (`none` models a nil pointer). -/
structure LoadSetting where
  settings : List (String × String)
  user : String
  password : String
  database : String
  table : String
  labelPrefix : String
  retry : Option Retry
  batchMode : BatchMode
  parsedNodes : List String
deriving DecidableEq, Repr

/-- The method `(*LoadSetting).BatchMode`: records the mode and immediately
updates the settings map (`group_commit` is set to `sync_mode` /
`async_mode`, or deleted for `OFF`). -/
def LoadSetting.setBatchMode (ls : LoadSetting) (mode : BatchMode) : LoadSetting :=
  { ls with
    batchMode := mode
    settings :=
      match mode with
      | BatchMode.SYNC => setKey ls.settings "group_commit" "sync_mode"
      | BatchMode.ASYNC => setKey ls.settings "group_commit" "async_mode"
      | BatchMode.OFF => delKey ls.settings "group_commit" }

/-- `config.NewLoadSetting`: zero-valued fields, the default retry policy,
then `BatchMode(ASYNC)` is applied (the Go zero value of the `batchMode`
field is `SYNC`, the first enum constant). -/
def NewLoadSetting : LoadSetting :=
  LoadSetting.setBatchMode
    { settings := []
      user := ""
      password := ""
      database := ""
      table := ""
      labelPrefix := ""
      retry := some NewDefaultRetry
      batchMode := BatchMode.SYNC
      parsedNodes := [] }
    BatchMode.ASYNC

/-- `(*LoadSetting).GetOptions`: a copy of the settings map (copying is
identity in the pure model). -/
def LoadSetting.GetOptions (ls : LoadSetting) : List (String × String) :=
  ls.settings

/-- `generateLabel` from `config.go`: the label string
`prefix_database_table_timeMillis_uuid`.  Wall clock and UUID are effects of
the Go code and enter here as arguments. -/
def generateLabel (labelPrefix database table : String)
    (currentTimeMillis : Int) (id : String) : String :=
  let p := if labelPrefix != "" then labelPrefix else ""
  p ++ "_" ++ database ++ "_" ++ table ++ "_" ++ toString currentTimeMillis ++ "_" ++ id

/-- `(*LoadSetting).GetLabel`: generates a brand-new label on every call,
from the current time and a fresh UUID (passed in as oracle values). -/
def LoadSetting.GetLabel (ls : LoadSetting) (currentTimeMillis : Int) (id : String) : String :=
  generateLabel ls.labelPrefix ls.database ls.table currentTimeMillis id

/-- `(*LoadSetting).GetEndpoint`: with an empty parsed node list the Go code
calls `log.Fatalf "LoadSetting endpoint required"` (a fatal, caller-visible
abort, modelled as `Except.error`); otherwise it returns
`parsedNodes[rand.Intn(len)]`.  The random draw is modelled by reducing an
arbitrary natural `randomIndex` modulo the list length, so a uniform source
yields each index with equal probability. -/
def LoadSetting.GetEndpoint (ls : LoadSetting) (randomIndex : Nat) : Except String String :=
  if ls.parsedNodes.length = 0 then
    Except.error "LoadSetting endpoint required"
  else
    Except.ok (ls.parsedNodes.getD (randomIndex % ls.parsedNodes.length) "")

/-- `(*LoadSetting).validate` from `config.go`: the first violated field
produces an error message; `nil` (here `none`) means the settings are
valid.  The retry checks run only when the retry pointer is non-nil. -/
def LoadSetting.validate (ls : LoadSetting) : Option String :=
  if ls.user = "" then some "user cannot be empty"
  else if ls.password = "" then some "password cannot be empty"
  else if ls.database = "" then some "database cannot be empty"
  else if ls.table = "" then some "table cannot be empty"
  else if ls.parsedNodes.length = 0 then
    some "feNodes cannot be empty, please call AddFeNodes() first"
  else
    match ls.retry with
    | some r =>
      if r.maxRetryTimes < 0 then some "maxRetryTimes cannot be negative"
      else if r.retryIntervalMs < 0 then some "retryIntervalMs cannot be negative"
      else none
    | none => none

/-- `(*LoadSetting).ValidateInternal` simply forwards to `validate`. -/
def LoadSetting.ValidateInternal (ls : LoadSetting) : Option String :=
  ls.validate

/-! ## Request builder (`pkg/load`, `HttpPutBuilder`) -/

/-- The standard base64 alphabet. -/
def base64Chars : List Char :=
  "ABCDEFGHIJKLMNOPQRSTUVWXYZabcdefghijklmnopqrstuvwxyz0123456789+/".data

/-- The character for a 6-bit group. -/
def base64Char (n : Nat) : Char :=
  base64Chars.getD n 'A'

/-- Standard base64 of a byte list (values < 256), with `=` padding: the
model of Go `base64.StdEncoding.EncodeToString`. -/
def base64Encode : List Nat → List Char
  | [] => []
  | [a] => [base64Char (a / 4), base64Char (a % 4 * 16), '=', '=']
  | [a, b] => [base64Char (a / 4), base64Char (a % 4 * 16 + b / 16),
               base64Char (b % 16 * 4), '=']
  | a :: b :: c :: rest =>
    base64Char (a / 4) :: base64Char (a % 4 * 16 + b / 16) ::
    base64Char (b % 16 * 4 + c / 64) :: base64Char (c % 64) :: base64Encode rest

/-- Base64 of a string's UTF-8 bytes. -/
def base64StdEncode (s : String) : String :=
  String.mk (base64Encode (s.toUTF8.data.toList.map (fun b => b.toNat)))

/-- `load.HttpPutBuilder`: URL, header map, and whether a request body
(reader) has been attached (`hasBody = false` models a nil body). -/
structure HttpPutBuilder where
  url : String
  headers : List (String × String)
  hasBody : Bool
deriving DecidableEq, Repr

/-- `load.NewHttpPutBuilder`. -/
def NewHttpPutBuilder : HttpPutBuilder :=
  ⟨"", [], false⟩

/-- `(*HttpPutBuilder).SetUrl`. -/
def HttpPutBuilder.SetUrl (h : HttpPutBuilder) (url : String) : HttpPutBuilder :=
  { h with url := url }

/-- `(*HttpPutBuilder).AddCommonHeader`: the `Expect: 100-continue` header. -/
def HttpPutBuilder.AddCommonHeader (h : HttpPutBuilder) : HttpPutBuilder :=
  { h with headers := setKey h.headers "Expect" "100-continue" }

/-- `(*HttpPutBuilder).BaseAuth`: basic authentication from user/password. -/
def HttpPutBuilder.BaseAuth (h : HttpPutBuilder) (user password : String) : HttpPutBuilder :=
  { h with headers :=
      setKey h.headers "Authorization" ("Basic " ++ base64StdEncode (user ++ ":" ++ password)) }

/-- `(*HttpPutBuilder).SetLabel`. -/
def HttpPutBuilder.SetLabel (h : HttpPutBuilder) (label : String) : HttpPutBuilder :=
  { h with headers := setKey h.headers "label" label }

/-- `(*HttpPutBuilder).AddProperties`: copies every option into the header
map (a Go map-range; the association list fixes one iteration order, which
is irrelevant to the final map because `setKey` replaces). -/
def HttpPutBuilder.AddProperties (h : HttpPutBuilder)
    (properties : List (String × String)) : HttpPutBuilder :=
  { h with headers := properties.foldl (fun m kv => setKey m kv.1 kv.2) h.headers }

/-- `(*HttpPutBuilder).SetReader`: attaches the caller's stream as the
request body (`readerPresent = false` models a nil reader). -/
def HttpPutBuilder.SetReader (h : HttpPutBuilder) (readerPresent : Bool) : HttpPutBuilder :=
  { h with hasBody := readerPresent }

/-- An outbound HTTP request as far as the claims observe it. -/
structure HttpRequest where
  method : String
  url : String
  headers : List (String × String)
deriving DecidableEq, Repr

/-- `(*HttpPutBuilder).Build`: fails on an empty URL or nil body; when the
header map holds a `group_commit` key it logs a warning and deletes the
`label` header; then all headers go onto the request.  The returned `Bool`
records whether that diagnostic (`log.Warnf`) was emitted. -/
def HttpPutBuilder.Build (h : HttpPutBuilder) : Except String (HttpRequest × Bool) :=
  if h.url = "" then Except.error "url cannot be empty"
  else if !h.hasBody then Except.error "request body cannot be nil"
  else
    let groupCommit := (List.lookup "group_commit" h.headers).isSome
    let headers := if groupCommit then delKey h.headers "label" else h.headers
    Except.ok (⟨"PUT", h.url, headers⟩, groupCommit)

/-! ## Stream loader (`pkg/load/stream_loader.go`) -/

/-- `LoadURLPattern` instantiated as in `NewStreamLoader`. -/
def loadURLFor (endpoint database table : String) : String :=
  "http://" ++ endpoint ++ "/api/" ++ database ++ "/" ++ table ++ "/_stream_load"

/-- `(*StreamLoader).createRequest`: a fresh builder per request; URL, basic
auth, common header, a label generated by this very call (`GetLabel` draws a
new time/UUID pair, supplied here as arguments), the options snapshot, the
caller's stream, then `Build`. -/
def createRequest (ls : LoadSetting) (url : String)
    (currentTimeMillis : Int) (uuid : String) (readerPresent : Bool) :
    Except String (HttpRequest × Bool) :=
  let options := ls.GetOptions
  (((((NewHttpPutBuilder.SetUrl url).BaseAuth ls.user ls.password
      ).AddCommonHeader.SetLabel (ls.GetLabel currentTimeMillis uuid)
     ).AddProperties options).SetReader readerPresent).Build

/-- `isSuccessStatus` from `stream_loader.go`: Go `strings.EqualFold status
"success"`. -/
def isSuccessStatus (status : String) : Bool :=
  strEqualFold status "success"

/-- A completed HTTP response as `handleResponse` observes it:
`statusCode`/`statusLine` from the transport, `hasBody` models
`resp.Body != nil`, `body` is the text read through the 1 MiB
`LimitReader`, and `parsed` is the result of `jsoniter.Unmarshal` on that
body (`none` models a parse error).  A body-read I/O error is out of scope
of the claims and not modelled. -/
structure HttpResponse where
  statusCode : Int
  statusLine : String
  hasBody : Bool
  body : String
  parsed : Option RespContent

/-- `(*StreamLoader).handleResponse`: on HTTP 200 with a body, parse the
JSON; `isSuccessStatus` decides Success versus Failure, and the failure
message is composed from `Message` and `ErrorURL` when `Message` is
non-empty, else it is the raw body text.  Any non-200 status yields a
transport-classified error carrying the status line. -/
def handleResponse (resp : HttpResponse) : Except String LoadResponse :=
  if resp.statusCode = 200 && resp.hasBody then
    match resp.parsed with
    | none => Except.error "failed to unmarshal response"
    | some respContent =>
      if isSuccessStatus respContent.Status then
        Except.ok { Status := LoadStatus.SUCCESS, Resp := respContent }
      else
        let errorMessage :=
          if respContent.Message != "" then
            "load failed. cause by: " ++ respContent.Message ++
              ", please check more detail from url: " ++ respContent.ErrorURL
          else
            resp.body
        Except.ok { Status := LoadStatus.FAILURE, Resp := respContent,
                    ErrorMessage := errorMessage }
  else
    Except.error ("stream load error: " ++ resp.statusLine)

/-! ## Retry orchestrator (`(*DorisLoadClient).Load`) -/

/-- What one call of `streamLoader.Load` produced: Go's
`(*LoadResponse, error)` pair. -/
structure AttemptOutcome where
  resp : Option LoadResponse
  err : Option GoError
deriving DecidableEq, Repr

/-- The success test of the retry loop:
`lastErr == nil && response != nil && response.Status == SUCCESS`. -/
def attemptSucceeded (o : AttemptOutcome) : Bool :=
  o.err.isNone &&
    (match o.resp with
     | some r => r.Status == LoadStatus.SUCCESS
     | none => false)

/-- How the final log/error renders a `LoadStatus` (Go `%v`); its exact text
is irrelevant to every claim. -/
def loadStatusRepr : LoadStatus → String
  | LoadStatus.SUCCESS => "SUCCESS"
  | LoadStatus.FAILURE => "FAILURE"

/-- What a whole `Load` call produced, plus the observables the claims
speak about: how many attempts ran and which backoff sleeps occurred. -/
structure ClientLoadResult where
  attemptsMade : Nat
  sleepsMs : List Int
  response : Option LoadResponse
  err : Option GoError
deriving DecidableEq, Repr

/-- The attempt loop of `(*DorisLoadClient).Load`
(`for attempt := 0; attempt <= maxRetries; attempt++`).  `att` is the
oracle giving attempt number `a` its `streamLoader.Load` outcome; `fuel`
bounds the remaining iterations and is always instantiated so that the
`attempt == maxRetries` break fires first; `sleeps` accumulates backoff
waits in reverse.  The loop exits on success, on a non-retryable failure,
or when the budget is spent, carrying the last `(response, lastErr)` pair
out to the post-loop code. -/
def loadLoop (att : Nat → AttemptOutcome) (maxRetries baseIntervalMs : Int) :
    Nat → Nat → List Int → Option LoadResponse → Option GoError →
    Nat × List Int × Bool × Option LoadResponse × Option GoError
  | 0, a, sleeps, resp, err => (a, sleeps.reverse, false, resp, err)
  | fuel + 1, a, sleeps, _, _ =>
    let sleeps' :=
      if a > 0 then calculateBackoffInterval (a : Int) baseIntervalMs :: sleeps
      else sleeps
    let o := att a
    if attemptSucceeded o then
      (a + 1, sleeps'.reverse, true, o.resp, none)
    else if !isRetryableError o.err o.resp then
      (a + 1, sleeps'.reverse, false, o.resp, o.err)
    else if (a : Int) = maxRetries then
      (a + 1, sleeps'.reverse, false, o.resp, o.err)
    else
      loadLoop att maxRetries baseIntervalMs fuel (a + 1) sleeps' o.resp o.err

/-- `(*DorisLoadClient).Load`: run the attempt loop with the settings'
retry policy, then map the exit to the returned `(response, error)` pair: a
success returns `(response, nil)` from inside the loop; otherwise a non-nil
`lastErr` is returned as-is; a failure response without a transport error
becomes a `"load failed with status"` error; and if the loop never ran
(negative `maxRetries`) the caller sees `"load failed: unknown error"`. -/
def clientLoad (att : Nat → AttemptOutcome) (maxRetries baseIntervalMs : Int) :
    ClientLoadResult :=
  let exit := loadLoop att maxRetries baseIntervalMs (maxRetries + 1).toNat 0 [] none none
  match exit with
  | (made, sleeps, success, response, lastErr) =>
    if success then
      ⟨made, sleeps, response, none⟩
    else if lastErr.isSome then
      ⟨made, sleeps, response, lastErr⟩
    else
      match response with
      | some r =>
        ⟨made, sleeps, some r,
          some { msg := "load failed with status: " ++ loadStatusRepr r.Status }⟩
      | none => ⟨made, sleeps, none, some { msg := "load failed: unknown error" }⟩

/-! ## Helper lemmas -/

theorem int64wrap_eq_self (x : Int) (h0 : -2 ^ 63 ≤ x) (h1 : x < 2 ^ 63) :
    int64wrap x = x := by
  unfold int64wrap
  have hmod : (x + 2 ^ 63) % 2 ^ 64 = x + 2 ^ 63 :=
    Int.emod_eq_of_lt (by omega) (by omega)
  omega

theorem lookup_cons_self (a v : String) (rest : List (String × String)) :
    List.lookup a ((a, v) :: rest) = some v := by
  simp [List.lookup]

theorem lookup_cons_ne (k a v : String) (rest : List (String × String))
    (h : k ≠ a) : List.lookup k ((a, v) :: rest) = List.lookup k rest := by
  have hb : (k == a) = false := beq_eq_false_iff_ne.mpr h
  simp [List.lookup, hb]

theorem lookup_setKey_self (m : List (String × String)) (k v : String) :
    List.lookup k (setKey m k v) = some v := by
  induction m with
  | nil => simp [setKey, List.lookup]
  | cons kv rest ih =>
    obtain ⟨a, b⟩ := kv
    by_cases h : a = k
    · simp [setKey, h, lookup_cons_self]
    · rw [setKey, if_neg h, lookup_cons_ne k a b _ (fun hh => h hh.symm), ih]

theorem lookup_setKey_ne (m : List (String × String)) (k v k' : String)
    (h : k' ≠ k) : List.lookup k' (setKey m k v) = List.lookup k' m := by
  induction m with
  | nil => simp [setKey, lookup_cons_ne k' k v [] h]
  | cons kv rest ih =>
    obtain ⟨a, b⟩ := kv
    by_cases hk : a = k
    · subst hk
      rw [setKey, if_pos rfl, lookup_cons_ne k' a v _ h, lookup_cons_ne k' a b _ h]
    · by_cases hk' : k' = a
      · subst hk'
        rw [setKey, if_neg hk, lookup_cons_self, lookup_cons_self]
      · rw [setKey, if_neg hk, lookup_cons_ne k' a b _ hk', lookup_cons_ne k' a b _ hk', ih]

theorem lookup_delKey_self (m : List (String × String)) (k : String) :
    List.lookup k (delKey m k) = none := by
  induction m with
  | nil => simp [delKey]
  | cons kv rest ih =>
    obtain ⟨a, b⟩ := kv
    by_cases hk : a = k
    · simpa [delKey, List.filter_cons, hk] using ih
    · have : delKey ((a, b) :: rest) k = (a, b) :: delKey rest k := by
        simp [delKey, List.filter_cons, hk]
      rw [this, lookup_cons_ne k a b _ (fun hh => hk hh.symm), ih]

/-- `setKey` never deletes a key: an existing binding stays present. -/
theorem lookup_isSome_setKey (m : List (String × String)) (k v k' : String)
    (h : (List.lookup k' m).isSome) :
    (List.lookup k' (setKey m k v)).isSome := by
  by_cases hk : k' = k
  · subst hk
    simp [lookup_setKey_self]
  · rwa [lookup_setKey_ne m k v k' hk]

/-- A key present in the base map survives folding any property list in. -/
theorem lookup_isSome_foldl_setKey (props : List (String × String))
    (m : List (String × String)) (k : String)
    (h : (List.lookup k m).isSome) :
    (List.lookup k (props.foldl (fun acc kv => setKey acc kv.1 kv.2) m)).isSome := by
  induction props generalizing m with
  | nil => simpa using h
  | cons kv rest ih =>
    simpa using ih (setKey m kv.1 kv.2) (lookup_isSome_setKey m kv.1 kv.2 k h)

/-- A key bound somewhere in the property list is present after the fold. -/
theorem lookup_isSome_foldl_setKey_of_mem (props : List (String × String))
    (m : List (String × String)) (k : String)
    (h : (List.lookup k props).isSome) :
    (List.lookup k (props.foldl (fun acc kv => setKey acc kv.1 kv.2) m)).isSome := by
  induction props generalizing m with
  | nil => simp [List.lookup] at h
  | cons kv rest ih =>
    obtain ⟨a, b⟩ := kv
    simp only [List.foldl_cons]
    by_cases hk : a = k
    · subst hk
      exact lookup_isSome_foldl_setKey rest _ a
        (by rw [lookup_setKey_self]; rfl)
    · apply ih
      rwa [lookup_cons_ne k a b rest (fun hh => hk hh.symm)] at h

/-- A key absent from the property list keeps its base-map binding. -/
theorem lookup_foldl_setKey_of_none (props : List (String × String))
    (m : List (String × String)) (k : String)
    (h : List.lookup k props = none) :
    List.lookup k (props.foldl (fun acc kv => setKey acc kv.1 kv.2) m) =
      List.lookup k m := by
  induction props generalizing m with
  | nil => simp
  | cons kv rest ih =>
    obtain ⟨a, b⟩ := kv
    by_cases hk : a = k
    · subst hk
      rw [lookup_cons_self] at h
      exact absurd h (by simp)
    · rw [lookup_cons_ne k a b rest (fun hh => hk hh.symm)] at h
      simp only [List.foldl_cons]
      rw [ih (setKey m a b) h, lookup_setKey_ne m a b k (fun hh => hk hh.symm)]

/-! ## C3: the backoff schedule -/

/-- C3 (counterexample).  The claimed formula
`interval(n) = min(baseIntervalMs * 2^(n-1), 16000)` fails for attempt
number 65 with base interval 1 ms: Go evaluates `1 << 64` in `int64`
arithmetic, which is 0, so the code waits 0 ms where the formula demands
the 16000 ms cap. -/
theorem c3_counterexample :
    calculateBackoffInterval 65 1 = 0 ∧
    min ((1 : Int) * 2 ^ ((65 : Int) - 1).toNat) 16000 = 16000 ∧ (0 : Int) ≠ 16000 := by
  refine ⟨by decide, by decide, by decide⟩

/-- C3 (amended).  For every attempt number `n` with `1 ≤ n ≤ 63` and every
`baseIntervalMs ≥ 0` such that `baseIntervalMs * 2^(n-1)` fits in a signed
64-bit integer, the backoff interval before retry `n` equals
`min(baseIntervalMs * 2^(n-1), 16000)` milliseconds (outside that range the
64-bit shift/multiplication wraps); in particular policy (5, 1000) yields
the intervals [1000, 2000, 4000, 8000, 16000] ms and policy (3, 5000)
yields [5000, 10000, 16000] ms. -/
theorem c3_backoff_schedule (n baseIntervalMs : Int)
    (h1 : 1 ≤ n) (h63 : n ≤ 63) (hb : 0 ≤ baseIntervalMs)
    (hfit : baseIntervalMs * 2 ^ (n - 1).toNat < 2 ^ 63) :
    calculateBackoffInterval n baseIntervalMs =
      min (baseIntervalMs * 2 ^ (n - 1).toNat) 16000 ∧
    ((List.range 5).map fun i => calculateBackoffInterval ((i : Int) + 1) 1000) =
      [1000, 2000, 4000, 8000, 16000] ∧
    ((List.range 3).map fun i => calculateBackoffInterval ((i : Int) + 1) 5000) =
      [5000, 10000, 16000] := by
  refine ⟨?_, by decide, by decide⟩
  have hexp : (n - 1).toNat ≤ 62 := by omega
  have hpow : (2 : Int) ^ (n - 1).toNat < 2 ^ 63 := by
    calc (2 : Int) ^ (n - 1).toNat ≤ 2 ^ 62 :=
          pow_le_pow_right₀ (by norm_num) hexp
      _ < 2 ^ 63 := by norm_num
  have hpow0 : (0 : Int) ≤ 2 ^ (n - 1).toNat := by positivity
  unfold calculateBackoffInterval
  rw [if_neg (by omega : ¬ n ≤ 0)]
  simp only
  have hprod0 : (0 : Int) ≤ baseIntervalMs * 2 ^ (n - 1).toNat := mul_nonneg hb hpow0
  rw [int64wrap_eq_self _ (by omega) hpow,
    int64wrap_eq_self _ (by omega) hfit]
  by_cases hc : baseIntervalMs * 2 ^ (n - 1).toNat > 16000
  · rw [if_pos hc]
    omega
  · rw [if_neg hc]
    omega

/-- Witness for C3 at policy (3, 5000), attempt 3. -/
theorem c3_witness :
    calculateBackoffInterval 3 5000 =
      min ((5000 : Int) * 2 ^ ((3 : Int) - 1).toNat) 16000 :=
  (c3_backoff_schedule 3 5000 (by decide) (by decide) (by decide) (by decide)).1

/-! ## C9: endpoint selection -/

/-- C9.  `GetEndpoint` on an empty parsed endpoint list fails with the
caller-visible fatal error `"LoadSetting endpoint required"` (no silent
default); on a non-empty list it returns a member of the list, and the
uniform random draw maps each index `i < length` to exactly the `i`-th
endpoint, so a uniform `rand.Intn` sample selects each endpoint with equal
probability. -/
theorem c9_get_endpoint (ls : LoadSetting) (randomIndex : Nat) :
    (ls.parsedNodes = [] →
      ls.GetEndpoint randomIndex = Except.error "LoadSetting endpoint required") ∧
    (ls.parsedNodes ≠ [] →
      ∃ x, ls.GetEndpoint randomIndex = Except.ok x ∧ x ∈ ls.parsedNodes) ∧
    (∀ i, i < ls.parsedNodes.length →
      ls.GetEndpoint i = Except.ok (ls.parsedNodes.getD i "")) := by
  refine ⟨?_, ?_, ?_⟩
  · intro h
    simp [LoadSetting.GetEndpoint, h]
  · intro h
    have hlen : ls.parsedNodes.length ≠ 0 := by
      simpa [List.length_eq_zero] using h
    have hlt : randomIndex % ls.parsedNodes.length < ls.parsedNodes.length :=
      Nat.mod_lt _ (Nat.pos_of_ne_zero hlen)
    refine ⟨ls.parsedNodes.getD (randomIndex % ls.parsedNodes.length) "", ?_, ?_⟩
    · simp [LoadSetting.GetEndpoint, hlen]
    · rw [List.getD_eq_getElem ls.parsedNodes "" hlt]
      exact List.getElem_mem hlt
  · intro i hi
    have hlen : ls.parsedNodes.length ≠ 0 := by omega
    have hmod : i % ls.parsedNodes.length = i := Nat.mod_eq_of_lt hi
    simp [LoadSetting.GetEndpoint, hlen, hmod]

/-- Witness for C9: a two-endpoint list indexes endpoint 1, and the empty
default settings fail with the fatal error. -/
theorem c9_witness :
    ({ NewLoadSetting with parsedNodes := ["fe1:8030", "fe2:8030"] } :
        LoadSetting).GetEndpoint 1 =
      Except.ok (({ NewLoadSetting with
        parsedNodes := ["fe1:8030", "fe2:8030"] } : LoadSetting).parsedNodes.getD 1 "") ∧
    NewLoadSetting.GetEndpoint 0 = Except.error "LoadSetting endpoint required" :=
  ⟨(c9_get_endpoint { NewLoadSetting with parsedNodes := ["fe1:8030", "fe2:8030"] } 1).2.2
      1 (by decide),
   (c9_get_endpoint NewLoadSetting 0).1 rfl⟩

/-! ## C6: settings validation -/

/-- C6.  Validation succeeds (`none`) exactly when user, password,
database, table and the parsed endpoint list are all non-empty and any
configured retry policy has non-negative `maxRetryTimes` and
`retryIntervalMs`; and every failure carries a structured message naming a
field that is in fact violated. -/
theorem c6_validate_iff (ls : LoadSetting) :
    (ls.validate = none ↔
      (ls.user ≠ "" ∧ ls.password ≠ "" ∧ ls.database ≠ "" ∧ ls.table ≠ "" ∧
       ls.parsedNodes ≠ [] ∧
       ∀ r, ls.retry = some r → 0 ≤ r.maxRetryTimes ∧ 0 ≤ r.retryIntervalMs)) ∧
    (∀ m, ls.validate = some m →
      (m = "user cannot be empty" ∧ ls.user = "") ∨
      (m = "password cannot be empty" ∧ ls.password = "") ∨
      (m = "database cannot be empty" ∧ ls.database = "") ∨
      (m = "table cannot be empty" ∧ ls.table = "") ∨
      (m = "feNodes cannot be empty, please call AddFeNodes() first" ∧
        ls.parsedNodes = []) ∨
      (∃ r, ls.retry = some r ∧
        ((m = "maxRetryTimes cannot be negative" ∧ r.maxRetryTimes < 0) ∨
         (m = "retryIntervalMs cannot be negative" ∧ r.retryIntervalMs < 0)))) := by
  unfold LoadSetting.validate
  by_cases hu : ls.user = "" <;> simp only [hu, if_true, if_false]
  · simp [hu]
  by_cases hp : ls.password = "" <;> simp only [hp, if_true, if_false]
  · simp [hu, hp]
  by_cases hd : ls.database = "" <;> simp only [hd, if_true, if_false]
  · simp [hu, hp, hd]
  by_cases ht : ls.table = "" <;> simp only [ht, if_true, if_false]
  · simp [hu, hp, hd, ht]
  by_cases hn : ls.parsedNodes.length = 0 <;> simp only [hn, if_true, if_false]
  · simp [hu, hp, hd, ht, List.length_eq_zero.mp hn]
  have hn' : ls.parsedNodes ≠ [] := by
    simpa [List.length_eq_zero] using hn
  cases hr : ls.retry with
  | none => simp [hu, hp, hd, ht, hn', hr]
  | some r =>
    by_cases hm : r.maxRetryTimes < 0 <;> simp only [hm, if_true, if_false]
    · constructor
      · constructor
        · intro h
          exact absurd h (by simp)
        · rintro ⟨-, -, -, -, -, hnn⟩
          exact absurd (hnn r rfl).1 (by omega)
      · intro m hmsg
        refine Or.inr (Or.inr (Or.inr (Or.inr (Or.inr ⟨r, rfl, Or.inl ⟨?_, hm⟩⟩))))
        simpa using hmsg.symm
    by_cases hi : r.retryIntervalMs < 0 <;> simp only [hi, if_true, if_false]
    · constructor
      · constructor
        · intro h
          exact absurd h (by simp)
        · rintro ⟨-, -, -, -, -, hnn⟩
          exact absurd (hnn r rfl).2 (by omega)
      · intro m hmsg
        refine Or.inr (Or.inr (Or.inr (Or.inr (Or.inr ⟨r, rfl, Or.inr ⟨?_, hi⟩⟩))))
        simpa using hmsg.symm
    · constructor
      · simp only [true_iff]
        refine ⟨hu, hp, hd, ht, hn', ?_⟩
        intro r' hr'
        cases hr'
        omega
      · intro m hmsg
        exact absurd hmsg (by simp)

/-- Witness for C6: a settings value whose only violation is a negative
`maxRetryTimes` is rejected with the matching structured message. -/
theorem c6_witness :
    ("maxRetryTimes cannot be negative" = "user cannot be empty" ∧ "u" = "") ∨
    ("maxRetryTimes cannot be negative" = "password cannot be empty" ∧ "p" = "") ∨
    ("maxRetryTimes cannot be negative" = "database cannot be empty" ∧ "d" = "") ∨
    ("maxRetryTimes cannot be negative" = "table cannot be empty" ∧ "t" = "") ∨
    ("maxRetryTimes cannot be negative" =
        "feNodes cannot be empty, please call AddFeNodes() first" ∧
      (["fe1:8030"] : List String) = []) ∨
    (∃ r, (some (NewRetry (-1) 5) : Option Retry) = some r ∧
      (("maxRetryTimes cannot be negative" = "maxRetryTimes cannot be negative" ∧
          r.maxRetryTimes < 0) ∨
       ("maxRetryTimes cannot be negative" = "retryIntervalMs cannot be negative" ∧
          r.retryIntervalMs < 0))) :=
  (c6_validate_iff
      { settings := [], user := "u", password := "p", database := "d", table := "t",
        labelPrefix := "", retry := some (NewRetry (-1) 5),
        batchMode := BatchMode.OFF, parsedNodes := ["fe1:8030"] }).2
    "maxRetryTimes cannot be negative" rfl

/-! ## C7: interpretation of HTTP 200 responses -/

/-- C7.  For an HTTP 200 response whose body parses as the protocol's JSON
schema: a status string that case-insensitively equals "success" yields a
Success outcome carrying the parsed fields; any other status yields a
Failure outcome whose error message is composed from the `Message` field
and the error-detail URL when `Message` is non-empty, and is the raw body
text otherwise. -/
theorem c7_handle_response_200 (resp : HttpResponse) (rc : RespContent)
    (h200 : resp.statusCode = 200) (hbody : resp.hasBody = true)
    (hparse : resp.parsed = some rc) :
    (isSuccessStatus rc.Status = true →
      handleResponse resp = Except.ok { Status := LoadStatus.SUCCESS, Resp := rc }) ∧
    (isSuccessStatus rc.Status = false → rc.Message ≠ "" →
      handleResponse resp = Except.ok
        { Status := LoadStatus.FAILURE, Resp := rc,
          ErrorMessage := "load failed. cause by: " ++ rc.Message ++
            ", please check more detail from url: " ++ rc.ErrorURL }) ∧
    (isSuccessStatus rc.Status = false → rc.Message = "" →
      handleResponse resp = Except.ok
        { Status := LoadStatus.FAILURE, Resp := rc, ErrorMessage := resp.body }) := by
  refine ⟨?_, ?_, ?_⟩
  · intro hs
    simp [handleResponse, h200, hbody, hparse, hs]
  · intro hs hm
    simp [handleResponse, h200, hbody, hparse, hs, hm]
  · intro hs hm
    simp [handleResponse, h200, hbody, hparse, hs, hm]

/-- Witness for C7: a 200 response whose parsed status is "Success" (mixed
case) is a Success outcome, and a "Fail" status with a message composes the
failure message from `Message` and `ErrorURL`. -/
theorem c7_witness :
    handleResponse
        { statusCode := 200, statusLine := "200 OK", hasBody := true,
          body := "body0",
          parsed := some { Status := "Success", NumberLoadedRows := 100 } } =
      Except.ok { Status := LoadStatus.SUCCESS,
                  Resp := { Status := "Success", NumberLoadedRows := 100 } } ∧
    handleResponse
        { statusCode := 200, statusLine := "200 OK", hasBody := true,
          body := "body1",
          parsed := some { Status := "Fail", Message := "too many filtered rows",
                           ErrorURL := "http://e/err" } } =
      Except.ok { Status := LoadStatus.FAILURE,
                  Resp := { Status := "Fail", Message := "too many filtered rows",
                            ErrorURL := "http://e/err" },
                  ErrorMessage := "load failed. cause by: too many filtered rows, " ++
                    "please check more detail from url: http://e/err" } :=
  ⟨(c7_handle_response_200 _ { Status := "Success", NumberLoadedRows := 100 }
      rfl rfl rfl).1 (by decide),
   (c7_handle_response_200 _
      { Status := "Fail", Message := "too many filtered rows",
        ErrorURL := "http://e/err" } rfl rfl rfl).2.1 (by decide) (by decide)⟩

/-! ## C8 and C10: group commit versus the label header -/

/-- Whenever the settings' option map carries a `group_commit` key, any
successfully built request has no `label` header (even though `SetLabel`
put one in) and the diagnostic was emitted. -/
theorem createRequest_strips_label (ls : LoadSetting) (url : String)
    (tMs : Int) (uuid : String) (readerPresent : Bool)
    (req : HttpRequest) (warned : Bool)
    (hgc : (List.lookup "group_commit" ls.settings).isSome)
    (hb : createRequest ls url tMs uuid readerPresent = Except.ok (req, warned)) :
    List.lookup "label" req.headers = none ∧ warned = true := by
  simp only [createRequest, LoadSetting.GetOptions, NewHttpPutBuilder,
    HttpPutBuilder.SetUrl, HttpPutBuilder.BaseAuth, HttpPutBuilder.AddCommonHeader,
    HttpPutBuilder.SetLabel, HttpPutBuilder.AddProperties, HttpPutBuilder.SetReader,
    HttpPutBuilder.Build] at hb
  set base : List (String × String) :=
    setKey (setKey (setKey [] "Authorization"
      ("Basic " ++ base64StdEncode (ls.user ++ ":" ++ ls.password)))
      "Expect" "100-continue") "label" (ls.GetLabel tMs uuid) with hbase
  have hsome :
      (List.lookup "group_commit"
        (ls.settings.foldl (fun acc kv => setKey acc kv.1 kv.2) base)).isSome :=
    lookup_isSome_foldl_setKey_of_mem ls.settings base "group_commit" hgc
  rw [Option.isSome_iff_exists] at hsome
  obtain ⟨gc, hgcv⟩ := hsome
  split at hb
  · exact absurd hb (by simp)
  split at hb
  · exact absurd hb (by simp)
  rw [hgcv] at hb
  simp only [Option.isSome_some, if_pos] at hb
  rw [Except.ok.injEq, Prod.mk.injEq] at hb
  obtain ⟨hreq, hwarned⟩ := hb
  refine ⟨?_, hwarned.symm⟩
  rw [← hreq]
  exact lookup_delKey_self _ "label"

/-- C8.  If a group-commit (batch) mode other than OFF is configured — the
options map contains a `group_commit` key — then every request the loader
builds carries no `label` header even though a label was generated for it,
and the diagnostic warning is emitted. -/
theorem c8_group_commit_omits_label (ls : LoadSetting) (url : String)
    (tMs : Int) (uuid : String) (readerPresent : Bool)
    (req : HttpRequest) (warned : Bool)
    (hgc : (List.lookup "group_commit" ls.settings).isSome)
    (hb : createRequest ls url tMs uuid readerPresent = Except.ok (req, warned)) :
    List.lookup "label" req.headers = none ∧ warned = true :=
  createRequest_strips_label ls url tMs uuid readerPresent req warned hgc hb

/-- Witness for C8: default (ASYNC) settings build a request whose header
map has no `label` key, with the diagnostic emitted. -/
theorem c8_witness :
    (createRequest NewLoadSetting "http://e/api/d/t/_stream_load" 1 "u" true).toOption.map
      (fun rp => (List.lookup "label" rp.1.headers, rp.2)) = some (none, true) := by
  have h : createRequest NewLoadSetting "http://e/api/d/t/_stream_load" 1 "u" true =
      Except.ok ({ method := "PUT", url := "http://e/api/d/t/_stream_load",
                   headers := [("Authorization", "Basic Og=="),
                               ("Expect", "100-continue"),
                               ("group_commit", "async_mode")] }, true) := by rfl
  have h2 := c8_group_commit_omits_label NewLoadSetting "http://e/api/d/t/_stream_load"
    1 "u" true _ _ (by decide) h
  rw [h]
  simp [Except.toOption, h2.1]

/-- C10.  Freshly constructed settings (`NewLoadSetting`) default to batch
mode ASYNC: the options map already contains `group_commit = "async_mode"`
and the retry policy defaults to (5, 1000); consequently every request
built from default settings has its label header removed. -/
theorem c10_default_async_batch :
    List.lookup "group_commit" NewLoadSetting.settings = some "async_mode" ∧
    NewLoadSetting.retry = some (NewRetry 5 1000) ∧
    NewLoadSetting.batchMode = BatchMode.ASYNC ∧
    (∀ url tMs uuid readerPresent req warned,
      createRequest NewLoadSetting url tMs uuid readerPresent =
        Except.ok (req, warned) →
      List.lookup "label" req.headers = none) := by
  refine ⟨by decide, by decide, by decide, ?_⟩
  intro url tMs uuid readerPresent req warned hb
  exact (createRequest_strips_label NewLoadSetting url tMs uuid readerPresent
    req warned (by decide) hb).1

/-- Witness for C10: the concrete default-settings request of the C8
witness has no label header. -/
theorem c10_witness :
    List.lookup "label"
      ({ method := "PUT", url := "http://e/api/d/t/_stream_load",
         headers := [("Authorization", "Basic Og=="), ("Expect", "100-continue"),
                     ("group_commit", "async_mode")] } : HttpRequest).headers = none :=
  c10_default_async_batch.2.2.2 "http://e/api/d/t/_stream_load" 1 "u" true _ true
    (by rfl)

/-! ## C1: label generation across retry attempts -/

/-- With no group-commit option and no user-supplied `label` option, the
built request's `label` header is exactly the label `GetLabel` generated
for this very `createRequest` call. -/
theorem createRequest_label_header (ls : LoadSetting) (url : String)
    (tMs : Int) (uuid : String) (readerPresent : Bool)
    (req : HttpRequest) (warned : Bool)
    (hngc : List.lookup "group_commit" ls.settings = none)
    (hnl : List.lookup "label" ls.settings = none)
    (hb : createRequest ls url tMs uuid readerPresent = Except.ok (req, warned)) :
    List.lookup "label" req.headers = some (ls.GetLabel tMs uuid) := by
  simp only [createRequest, LoadSetting.GetOptions, NewHttpPutBuilder,
    HttpPutBuilder.SetUrl, HttpPutBuilder.BaseAuth, HttpPutBuilder.AddCommonHeader,
    HttpPutBuilder.SetLabel, HttpPutBuilder.AddProperties, HttpPutBuilder.SetReader,
    HttpPutBuilder.Build] at hb
  set base : List (String × String) :=
    setKey (setKey (setKey [] "Authorization"
      ("Basic " ++ base64StdEncode (ls.user ++ ":" ++ ls.password)))
      "Expect" "100-continue") "label" (ls.GetLabel tMs uuid) with hbase
  have hgcbase : List.lookup "group_commit" base = none := by
    rw [hbase, lookup_setKey_ne _ _ _ _ (by decide),
      lookup_setKey_ne _ _ _ _ (by decide), lookup_setKey_ne _ _ _ _ (by decide)]
    rfl
  have hgcall :
      List.lookup "group_commit"
        (ls.settings.foldl (fun acc kv => setKey acc kv.1 kv.2) base) = none := by
    rw [lookup_foldl_setKey_of_none ls.settings base _ hngc, hgcbase]
  have hlaball :
      List.lookup "label"
        (ls.settings.foldl (fun acc kv => setKey acc kv.1 kv.2) base) =
        some (ls.GetLabel tMs uuid) := by
    rw [lookup_foldl_setKey_of_none ls.settings base _ hnl, hbase, lookup_setKey_self]
  split at hb
  · exact absurd hb (by simp)
  split at hb
  · exact absurd hb (by simp)
  rw [hgcall] at hb
  simp only [Option.isSome_none, Bool.false_eq_true, if_false] at hb
  rw [Except.ok.injEq, Prod.mk.injEq] at hb
  obtain ⟨hreq, -⟩ := hb
  rw [← hreq]
  exact hlaball

/-- The request built by attempt number `i` of one `Load` call: every
attempt calls `streamLoader.Load`, which calls `createRequest`, whose
`GetLabel` call draws a fresh (timestamp, uuid) pair — here the `i`-th
output of the generator `gen`. -/
def attemptRequest (ls : LoadSetting) (url : String) (gen : Nat → Int × String)
    (readerPresent : Bool) (i : Nat) : Except String (HttpRequest × Bool) :=
  createRequest ls url (gen i).1 (gen i).2 readerPresent

/-- Concrete settings (batch mode OFF, so the label header survives) for
the C1 counterexample. -/
def c1Settings : LoadSetting :=
  { settings := [], user := "u", password := "p", database := "db", table := "t",
    labelPrefix := "", retry := some NewDefaultRetry, batchMode := BatchMode.OFF,
    parsedNodes := ["e:8030"] }

/-- A label generator whose attempts draw distinct UUID suffixes, as
`uuid.New()` does with probability 1. -/
def c1Gen : Nat → Int × String :=
  fun i => (1, "uuid" ++ toString i)

/-- C1 (counterexample).  The label is regenerated on every retry attempt,
not once per `Load` call: attempts 0 and 1 of the same logical `Load` send
different `label` header values (`GetLabel` draws a fresh timestamp/UUID
inside every `createRequest` call). -/
theorem c1_counterexample :
    (attemptRequest c1Settings "http://e:8030/api/db/t/_stream_load" c1Gen true 0).toOption.map
        (fun rp => List.lookup "label" rp.1.headers) = some (some "_db_t_1_uuid0") ∧
    (attemptRequest c1Settings "http://e:8030/api/db/t/_stream_load" c1Gen true 1).toOption.map
        (fun rp => List.lookup "label" rp.1.headers) = some (some "_db_t_1_uuid1") ∧
    ("_db_t_1_uuid0" : String) ≠ "_db_t_1_uuid1" :=
  ⟨by rfl, by rfl, by decide⟩

/-- C1 (amended).  A fresh label is generated once per attempt (per built
request), not once per `Load` invocation: the label header of attempt `i`
is `generateLabel` applied to the `i`-th fresh (timestamp, uuid) draw, so
attempts with distinct draws carry distinct labels. -/
theorem c1_label_regenerated_each_attempt (ls : LoadSetting) (url : String)
    (gen : Nat → Int × String) (readerPresent : Bool) (i : Nat)
    (req : HttpRequest) (warned : Bool)
    (hngc : List.lookup "group_commit" ls.settings = none)
    (hnl : List.lookup "label" ls.settings = none)
    (hb : attemptRequest ls url gen readerPresent i = Except.ok (req, warned)) :
    List.lookup "label" req.headers =
      some (generateLabel ls.labelPrefix ls.database ls.table (gen i).1 (gen i).2) :=
  createRequest_label_header ls url (gen i).1 (gen i).2 readerPresent req warned
    hngc hnl hb

/-- Witness for C1: attempt 0 of the counterexample configuration carries
exactly its freshly generated label. -/
theorem c1_witness :
    (attemptRequest c1Settings "http://e:8030/api/db/t/_stream_load" c1Gen true 0).toOption.map
        (fun rp => List.lookup "label" rp.1.headers) =
      some (some (generateLabel "" "db" "t" 1 "uuid0")) := by
  have h : attemptRequest c1Settings "http://e:8030/api/db/t/_stream_load" c1Gen true 0 =
      Except.ok ({ method := "PUT", url := "http://e:8030/api/db/t/_stream_load",
                   headers := [("Authorization", "Basic dTpw"),
                               ("Expect", "100-continue"),
                               ("label", "_db_t_1_uuid0")] }, false) := by rfl
  have h2 := c1_label_regenerated_each_attempt c1Settings
    "http://e:8030/api/db/t/_stream_load" c1Gen true 0 _ _ rfl rfl h
  rw [h]
  simpa [Except.toOption] using h2

/-! ## C2 and C5: the retry loop -/

/-- If every attempt yields a retryable transport error, the loop runs its
whole budget and exits carrying the last attempt's error. -/
theorem loadLoop_all_retryable (att : Nat → AttemptOutcome) (mR b : Int)
    (H : ∀ i, (att i).resp = none ∧ (att i).err.isSome = true ∧
      isRetryableError (att i).err (att i).resp = true) :
    ∀ (fuel a : Nat) (sleeps : List Int) (r : Option LoadResponse) (e : Option GoError),
      ((a : Int) + fuel = mR + 1) → 1 ≤ fuel →
      ∃ sl, loadLoop att mR b fuel a sleeps r e =
        (mR.toNat + 1, sl, false, none, (att mR.toNat).err) := by
  intro fuel
  induction fuel with
  | zero =>
    intro a sleeps r e _ hf
    omega
  | succ f ih =>
    intro a sleeps r e hsum _
    obtain ⟨h1, h2, h3⟩ := H a
    have hsucc : attemptSucceeded (att a) = false := by
      simp [attemptSucceeded, h1]
    by_cases hlast : (a : Int) = mR
    · have hf0 : f = 0 := by omega
      have ha : a = mR.toNat := by omega
      subst hf0
      refine ⟨(if a > 0 then calculateBackoffInterval (a : Int) b :: sleeps
               else sleeps).reverse, ?_⟩
      simp only [loadLoop]
      rw [if_neg (by simp [hsucc]), if_neg (by simp [h3]), if_pos hlast, h1, ha]
    · have hf1 : 1 ≤ f := by omega
      obtain ⟨sl, hsl⟩ := ih (a + 1)
        (if a > 0 then calculateBackoffInterval (a : Int) b :: sleeps else sleeps)
        (att a).resp (att a).err (by push_cast; push_cast at hsum; omega) hf1
      refine ⟨sl, ?_⟩
      simp only [loadLoop]
      rw [if_neg (by simp [hsucc]), if_neg (by simp [h3]), if_neg hlast]
      exact hsl

/-- C2.  With `maxRetries ≥ 0` and every attempt producing a retryable
transport error, `Load` makes exactly `maxRetries + 1` attempts (1 initial
+ `maxRetries` retries) and returns the error produced by the last attempt
(not an aggregate), with no response. -/
theorem c2_exhausts_retry_budget (att : Nat → AttemptOutcome)
    (maxRetries baseIntervalMs : Int) (h0 : 0 ≤ maxRetries)
    (H : ∀ i, (att i).resp = none ∧ (att i).err.isSome = true ∧
      isRetryableError (att i).err (att i).resp = true) :
    (clientLoad att maxRetries baseIntervalMs).attemptsMade = maxRetries.toNat + 1 ∧
    (clientLoad att maxRetries baseIntervalMs).err = (att maxRetries.toNat).err ∧
    (clientLoad att maxRetries baseIntervalMs).response = none := by
  obtain ⟨sl, hsl⟩ := loadLoop_all_retryable att maxRetries baseIntervalMs H
    (maxRetries + 1).toNat 0 [] none none (by omega) (by omega)
  have h2 := (H maxRetries.toNat).2.1
  unfold clientLoad
  rw [hsl]
  dsimp only
  rw [if_neg (by simp), if_pos (by simp [h2])]
  exact ⟨rfl, rfl, rfl⟩

/-- The number of attempts `Load` reports is the loop's exit count,
whatever post-processing the final branches do. -/
theorem clientLoad_made (att : Nat → AttemptOutcome) (mR b : Int) :
    (clientLoad att mR b).attemptsMade =
      (loadLoop att mR b (mR + 1).toNat 0 [] none none).1 := by
  unfold clientLoad
  rcases hE : loadLoop att mR b (mR + 1).toNat 0 [] none none with
    ⟨made, sleeps, success, response, lastErr⟩
  dsimp only
  split
  · rfl
  split
  · rfl
  rcases response with - | r <;> rfl

/-- A later attempt exists only when every earlier attempt failed
retryably: whenever attempt `j + 1` ran, attempt `j` was neither a success
nor a non-retryable failure. -/
theorem loadLoop_progress_only_when_retryable (att : Nat → AttemptOutcome)
    (mR b : Int) :
    ∀ (fuel a : Nat) (sleeps : List Int) (r : Option LoadResponse)
      (e : Option GoError) (j : Nat), a ≤ j →
      j + 1 < (loadLoop att mR b fuel a sleeps r e).1 →
      attemptSucceeded (att j) = false ∧
      isRetryableError (att j).err (att j).resp = true := by
  intro fuel
  induction fuel with
  | zero =>
    intro a sleeps r e j haj hlt
    simp only [loadLoop] at hlt
    omega
  | succ f ih =>
    intro a sleeps r e j haj hlt
    simp only [loadLoop] at hlt
    by_cases h1 : attemptSucceeded (att a) = true
    · rw [if_pos h1] at hlt
      dsimp only at hlt
      omega
    rw [if_neg h1] at hlt
    by_cases h2 : (!isRetryableError (att a).err (att a).resp) = true
    · rw [if_pos h2] at hlt
      dsimp only at hlt
      omega
    rw [if_neg h2] at hlt
    by_cases h3 : (a : Int) = mR
    · rw [if_pos h3] at hlt
      dsimp only at hlt
      omega
    rw [if_neg h3] at hlt
    rcases Nat.eq_or_lt_of_le haj with hj | hj
    · subst hj
      exact ⟨by simpa using h1, by simpa using h2⟩
    · exact ih (a + 1) _ _ _ j hj hlt

/-- With a successful first attempt, the loop exits at once carrying the
first attempt's response. -/
theorem loadLoop_first_success (att : Nat → AttemptOutcome) (mR b : Int)
    (fuel : Nat) (h : attemptSucceeded (att 0) = true) :
    loadLoop att mR b (fuel + 1) 0 [] none none =
      (1, [], true, (att 0).resp, none) := by
  simp [loadLoop, h]

/-- With a non-retryable failing first attempt, the loop exits at once
carrying the first attempt's response/error pair. -/
theorem loadLoop_first_nonretryable (att : Nat → AttemptOutcome) (mR b : Int)
    (fuel : Nat) (h1 : attemptSucceeded (att 0) = false)
    (h2 : isRetryableError (att 0).err (att 0).resp = false) :
    loadLoop att mR b (fuel + 1) 0 [] none none =
      (1, [], false, (att 0).resp, (att 0).err) := by
  simp [loadLoop, h1, h2]

/-- C5.  Within one `Load` call: a further attempt happens only after a
retryable non-success, so once an attempt yields Success or a
non-retryable failure no further attempt is made; in particular a
first-attempt Success returns that response after exactly one attempt, and
a first-attempt non-retryable failure stops after exactly one attempt,
regardless of the remaining retry budget. -/
theorem c5_terminal_on_success_or_nonretryable (att : Nat → AttemptOutcome)
    (maxRetries baseIntervalMs : Int) (h0 : 0 ≤ maxRetries) :
    (∀ j, j + 1 < (clientLoad att maxRetries baseIntervalMs).attemptsMade →
      attemptSucceeded (att j) = false ∧
      isRetryableError (att j).err (att j).resp = true) ∧
    (attemptSucceeded (att 0) = true →
      (clientLoad att maxRetries baseIntervalMs).attemptsMade = 1 ∧
      (clientLoad att maxRetries baseIntervalMs).response = (att 0).resp ∧
      (clientLoad att maxRetries baseIntervalMs).err = none) ∧
    (attemptSucceeded (att 0) = false →
      isRetryableError (att 0).err (att 0).resp = false →
      (clientLoad att maxRetries baseIntervalMs).attemptsMade = 1) := by
  have hfuel : (maxRetries + 1).toNat = maxRetries.toNat + 1 := by omega
  refine ⟨?_, ?_, ?_⟩
  · intro j hj
    rw [clientLoad_made] at hj
    exact loadLoop_progress_only_when_retryable att maxRetries baseIntervalMs
      (maxRetries + 1).toNat 0 [] none none j (Nat.zero_le j) hj
  · intro hs
    unfold clientLoad
    rw [hfuel, loadLoop_first_success att maxRetries baseIntervalMs _ hs]
    dsimp only
    rw [if_pos rfl]
    exact ⟨rfl, rfl, rfl⟩
  · intro hs hr
    unfold clientLoad
    rw [hfuel, loadLoop_first_nonretryable att maxRetries baseIntervalMs _ hs hr]
    dsimp only
    rw [if_neg (by simp)]
    by_cases he : (att 0).err.isSome = true
    · rw [if_pos he]
    · rw [if_neg he]
      rcases (att 0).resp with - | r
      · rfl
      · rfl

/-- The constant retryable transport error for the C2 witness. -/
def c2Att : Nat → AttemptOutcome :=
  fun _ => { resp := none, err := some { msg := "connection refused" } }

/-- Witness for C2 at policy (2, 100): exactly 3 attempts, the last
attempt's error, and delays of 100 ms then 200 ms. -/
theorem c2_witness :
    (clientLoad c2Att 2 100).attemptsMade = 3 ∧
    (clientLoad c2Att 2 100).err = (c2Att 2).err ∧
    (clientLoad c2Att 2 100).response = none ∧
    (clientLoad c2Att 2 100).sleepsMs = [100, 200] := by
  have hone : isRetryableError (some { msg := "connection refused" }) none = true := by
    decide
  have h := c2_exhausts_retry_budget c2Att 2 100 (by decide)
    (fun _ => ⟨rfl, rfl, hone⟩)
  exact ⟨h.1, h.2.1, h.2.2, by decide⟩

/-- The constant first-attempt success for the C5 witness. -/
def c5Att : Nat → AttemptOutcome :=
  fun _ => { resp := some { Status := LoadStatus.SUCCESS, Resp := {} }, err := none }

/-- Witness for C5: a policy with 5 retries still performs exactly one
attempt when the first attempt succeeds. -/
theorem c5_witness :
    (clientLoad c5Att 5 1000).attemptsMade = 1 ∧
    (clientLoad c5Att 5 1000).response = (c5Att 0).resp ∧
    (clientLoad c5Att 5 1000).err = none :=
  (c5_terminal_on_success_or_nonretryable c5Att 5 1000 (by decide)).2.1 (by decide)

/-! ## C4: the error classifier versus the spec's category list -/

theorem prefOf_iff (p s : List Char) : prefOf p s = true ↔ p <+: s := by
  induction p generalizing s with
  | nil => simp [prefOf]
  | cons a as ih =>
    cases s with
    | nil => simp [prefOf]
    | cons b t => simp [prefOf, List.cons_prefix_cons, ih, beq_iff_eq]

theorem subOf_iff (p s : List Char) : subOf p s = true ↔ p <:+: s := by
  induction s with
  | nil => simp [subOf, prefOf_iff]
  | cons b t ih => simp [subOf, prefOf_iff, ih, List.infix_cons_iff]

/-- Substring containment is transitive through an intermediate pattern. -/
theorem strContains_trans_sub (s p q : String)
    (hpq : subOf p.data q.data = true) (h : strContains s q = true) :
    strContains s p = true := by
  unfold strContains at h ⊢
  rw [subOf_iff] at hpq h ⊢
  exact hpq.trans h

/-- The spec's transient-category list for transport errors, written from
the wording of the specification ("connection refused/reset/aborted,
timeout (including any protocol-level 'temporary' or 'timeout'
classification exposed by the transport layer), DNS resolution failure,
unreachable network, stream end-of-input, broken pipe, or an HTTP redirect
status (301/302/307)").  This is the comparison definition for the
refinement claim about the classifier, deliberately written from the
spec's words rather than from the code. -/
def specTransientCategory (e : GoError) : Bool :=
  let m := strToLower e.msg
  strContains m "connection refused" || strContains m "connection reset" ||
  strContains m "connection aborted" ||
  (e.isNetError && (e.netTimeout || e.netTemporary)) ||
  strContains m "timeout" || strContains m "temporary failure" ||
  strContains m "no such host" ||
  strContains m "network is unreachable" ||
  strContains m "eof" || strContains m "broken pipe" ||
  strContains m "301 moved permanently" || strContains m "302 found" ||
  strContains m "307 temporary redirect"

/-- The transport branch of the classifier as a plain disjunction. -/
theorem isRetryableError_some_eq (e : GoError) :
    isRetryableError (some e) none =
      (e.isNetError && (e.netTimeout || e.netTemporary) ||
        retryableErrorPatterns.any (fun p => strContains (strToLower e.msg) p)) := by
  simp only [isRetryableError]
  cases hn : e.isNetError && (e.netTimeout || e.netTemporary) <;>
    cases ha : retryableErrorPatterns.any (fun p => strContains (strToLower e.msg) p) <;>
    simp [hn, ha]

/-- C4 (counterexample).  The claimed "retryable iff a known transient
category" equivalence fails: the code also retries every error whose
message contains "dial tcp", e.g. an invalid-address dial error that
matches none of the spec's transient categories. -/
theorem c4_counterexample :
    isRetryableError (some { msg := "dial tcp 10.0.0.1:99999: invalid port" }) none =
      true ∧
    specTransientCategory { msg := "dial tcp 10.0.0.1:99999: invalid port" } = false :=
  ⟨by decide, by decide⟩

set_option maxHeartbeats 2000000 in
/-- C4 (amended).  The classifier, given a transport error, never consults
the response; a transport error is retryable iff it matches the spec's
transient-category list **or** its message contains "dial tcp" (a generic
TCP dial failure, which the code's pattern list additionally retries); and
with no transport error, a Failure outcome is retryable iff its message
case-insensitively contains one of "connect", "unavailable", "timeout",
"redirect". -/
theorem c4_classifier (e : GoError) (response response' : Option LoadResponse)
    (r : LoadResponse) :
    isRetryableError (some e) response = isRetryableError (some e) response' ∧
    isRetryableError (some e) none =
      (specTransientCategory e || strContains (strToLower e.msg) "dial tcp") ∧
    isRetryableError none (some r) =
      (decide (r.Status = LoadStatus.FAILURE) &&
        retryableResponsePatterns.any
          (fun p => strContains (strToLower r.ErrorMessage) p)) := by
  refine ⟨rfl, ?_, ?_⟩
  · have hct : ∀ s, strContains s "connection timeout" = true →
        strContains s "timeout" = true := fun s =>
      strContains_trans_sub s "timeout" "connection timeout" (by decide)
    have hio : ∀ s, strContains s "i/o timeout" = true →
        strContains s "timeout" = true := fun s =>
      strContains_trans_sub s "timeout" "i/o timeout" (by decide)
    rw [isRetryableError_some_eq, Bool.eq_iff_iff]
    simp only [specTransientCategory, retryableErrorPatterns, List.any_cons,
      List.any_nil, Bool.or_eq_true, Bool.or_false, Bool.and_eq_true]
    have hct' := hct (strToLower e.msg)
    have hio' := hio (strToLower e.msg)
    tauto
  · simp only [isRetryableError]
    by_cases hst : r.Status = LoadStatus.FAILURE
    · by_cases hmsg : r.ErrorMessage = ""
      · have hempty :
            (retryableResponsePatterns.any fun p => strContains (strToLower "") p) =
              false := by decide
        simp [hst, hmsg, hempty]
      · simp [hst, hmsg, bne_iff_ne]
    · have : (r.Status == LoadStatus.FAILURE) = false :=
        beq_eq_false_iff_ne.mpr hst
      simp [this, hst]

end Doris
